import Mathlib

/-!
# Verification of `pfly_rust` (`src/src/lib.rs`)

Shallow embedding of the `pfly_rust` crate: a client library that connects a
Unix-domain stream socket to the projectFly companion service at `/tmp/pf.sock`
(`init`) and writes one bincode-serialized `PflyIpcData` record to it
(`send_message`).

Modelling conventions:
* Bytes are `Nat` values (reduced mod 256 where the machine would truncate).
* Rust `i32` fields are `Int` (two's-complement encoding applies `% 2^32`),
  `u8` is `Nat` (`% 256`), `bool` is `Bool`, `f64` is carried as its 64-bit
  IEEE-754 bit pattern (a `Nat`), since serialization only moves the bits; and
  `&'static str` is carried as its list of UTF-8 bytes.
* `bincode::serialize` (bincode 1.x legacy default options) writes fields in
  declaration order, little-endian, fixed-width integers, `bool` as one byte
  (1/0), and `&str` as a `u64` byte-count followed by the raw UTF-8 bytes.
* OS effects (connect outcome, write outcome) are explicit oracle arguments;
  socket state is passed explicitly.  A Rust `panic` is `Except.error` (for
  `init`) or `Option.none` (for the `unwrap` in `send_message`).
-/

namespace PflyRust

/-- Little-endian encoding of a natural number into exactly `w` bytes
(the digit list base 256, least significant first). -/
def natToBytesLE : Nat → Nat → List Nat
  | 0, _ => []
  | w + 1, n => n % 256 :: natToBytesLE w (n / 256)

/-- Little-endian decoding of a byte list back into a natural number. -/
def bytesToNatLE : List Nat → Nat
  | [] => 0
  | b :: bs => b + 256 * bytesToNatLE bs

/-- bincode encoding of a Rust `i32`: four little-endian bytes of the
two's-complement representation. -/
def serI32 (x : Int) : List Nat := natToBytesLE 4 (x % 2 ^ 32).toNat

/-- bincode encoding of a Rust `u64`: eight little-endian bytes. -/
def serU64 (n : Nat) : List Nat := natToBytesLE 8 (n % 2 ^ 64)

/-- bincode encoding of a Rust `f64`: the eight little-endian bytes of its
IEEE-754 bit pattern (`f64::to_bits`). -/
def serF64bits (bits : Nat) : List Nat := natToBytesLE 8 (bits % 2 ^ 64)

/-- bincode encoding of a Rust `u8`: one byte. -/
def serU8 (n : Nat) : List Nat := [n % 256]

/-- bincode encoding of a Rust `bool`: one byte, `1` for true, `0` for false. -/
def serBool (b : Bool) : List Nat := [if b then 1 else 0]

/-- bincode encoding of a Rust `&str`: the byte count as a `u64`
(eight little-endian bytes) followed by the raw UTF-8 bytes. -/
def serStr (s : List Nat) : List Nat := serU64 s.length ++ s

/-- The telemetry record of `src/src/lib.rs` (`pub struct PflyIpcData`),
fields in declaration order.  `latitude`/`longitude` hold the `f64` bit
patterns; `aircraftType` holds the UTF-8 bytes of the `&'static str`. -/
structure PflyIpcData where
  altitude : Int
  agl : Int
  groundspeed : Int
  ias : Int
  headingTrue : Int
  headingMagnetic : Int
  latitude : Nat
  longitude : Nat
  verticalSpeed : Int
  landingVerticalSpeed : Int
  gForce : Int
  fuel : Int
  transponder : Int
  bridgeType : Nat
  isOnGround : Bool
  isSlew : Bool
  isPaused : Bool
  pitch : Int
  roll : Int
  time : Int
  fps : Int
  aircraftType : List Nat
deriving Repr, DecidableEq

/-- A `PflyIpcData` valuation corresponds to an actual Rust value of the
struct: `i32` fields in range, the `u8` below 256, the `f64` bit patterns
below `2^64`, and the string a genuine byte sequence shorter than `2^64`. -/
def i32InRange (x : Int) : Prop := -(2 ^ 31) ≤ x ∧ x < 2 ^ 31

instance (x : Int) : Decidable (i32InRange x) := by
  unfold i32InRange; infer_instance

def PflyIpcData.Valid (d : PflyIpcData) : Prop :=
  i32InRange d.altitude ∧ i32InRange d.agl ∧ i32InRange d.groundspeed ∧
  i32InRange d.ias ∧ i32InRange d.headingTrue ∧ i32InRange d.headingMagnetic ∧
  d.latitude < 2 ^ 64 ∧ d.longitude < 2 ^ 64 ∧
  i32InRange d.verticalSpeed ∧ i32InRange d.landingVerticalSpeed ∧
  i32InRange d.gForce ∧ i32InRange d.fuel ∧ i32InRange d.transponder ∧
  d.bridgeType < 256 ∧
  i32InRange d.pitch ∧ i32InRange d.roll ∧ i32InRange d.time ∧
  i32InRange d.fps ∧
  d.aircraftType.length < 2 ^ 64 ∧ (∀ b ∈ d.aircraftType, b < 256)

instance (d : PflyIpcData) : Decidable d.Valid := by
  unfold PflyIpcData.Valid; infer_instance

/-- The per-field byte chunks `bincode::serialize` produces for a
`PflyIpcData`, in the struct's declaration order (serde derive serializes
fields in declaration order). -/
def pflyFieldEncodings (d : PflyIpcData) : List (List Nat) :=
  [serI32 d.altitude, serI32 d.agl, serI32 d.groundspeed, serI32 d.ias,
   serI32 d.headingTrue, serI32 d.headingMagnetic,
   serF64bits d.latitude, serF64bits d.longitude,
   serI32 d.verticalSpeed, serI32 d.landingVerticalSpeed,
   serI32 d.gForce, serI32 d.fuel, serI32 d.transponder,
   serU8 d.bridgeType,
   serBool d.isOnGround, serBool d.isSlew, serBool d.isPaused,
   serI32 d.pitch, serI32 d.roll, serI32 d.time, serI32 d.fps,
   serStr d.aircraftType]

/-- The payload bytes of `bincode::serialize(&data)`: the concatenation of the
per-field encodings. -/
def bincodeSerialize (d : PflyIpcData) : List Nat := (pflyFieldEncodings d).flatten

/-- One bincode write step: emit a field's bytes into the output buffer,
reporting any writer error (for a `Vec<u8>` buffer there is none). -/
def serOk (bs : List Nat) : Except String (List Nat) := .ok bs

/-- `bincode::serialize` as the fallible computation it is in Rust
(`Result<Vec<u8>>`): each field is serialized in turn and each step can in
principle report an error.  For these primitive field types writing into a
`Vec` never fails, so every step is `Except.ok`. -/
def bincodeSerializeResult (d : PflyIpcData) : Except String (List Nat) := do
  let f1 ← serOk (serI32 d.altitude)
  let f2 ← serOk (serI32 d.agl)
  let f3 ← serOk (serI32 d.groundspeed)
  let f4 ← serOk (serI32 d.ias)
  let f5 ← serOk (serI32 d.headingTrue)
  let f6 ← serOk (serI32 d.headingMagnetic)
  let f7 ← serOk (serF64bits d.latitude)
  let f8 ← serOk (serF64bits d.longitude)
  let f9 ← serOk (serI32 d.verticalSpeed)
  let f10 ← serOk (serI32 d.landingVerticalSpeed)
  let f11 ← serOk (serI32 d.gForce)
  let f12 ← serOk (serI32 d.fuel)
  let f13 ← serOk (serI32 d.transponder)
  let f14 ← serOk (serU8 d.bridgeType)
  let f15 ← serOk (serBool d.isOnGround)
  let f16 ← serOk (serBool d.isSlew)
  let f17 ← serOk (serBool d.isPaused)
  let f18 ← serOk (serI32 d.pitch)
  let f19 ← serOk (serI32 d.roll)
  let f20 ← serOk (serI32 d.time)
  let f21 ← serOk (serI32 d.fps)
  let f22 ← serOk (serStr d.aircraftType)
  return List.flatten [f1, f2, f3, f4, f5, f6, f7, f8, f9, f10, f11,
    f12, f13, f14, f15, f16, f17, f18, f19, f20, f21, f22]

/-! ## Socket and OS model -/

/-- State of one `socket2::Socket`: the Unix path it is connected to, whether
its file descriptor is still open, and the payloads the OS has accepted on it,
in write order (the stream the peer observes). -/
structure Socket where
  path : String
  isOpen : Bool
  sentPayloads : List (List Nat)
deriving Repr, DecidableEq

/-- Outcome of the OS-level `connect(2)` call, the only fallible step `init`
reaches (the `Socket::new`/`SockAddr::unix` unwraps cannot fail for this
fixed short path). -/
inductive ConnectResult
  | ok
  | errNoListener
  | errNoPath
  | errPermission
  | errOther
deriving Repr, DecidableEq

/-- Outcome the OS reports for the `send(2)` call. -/
inductive WriteResult
  | ok
  | errPeerClosed
  | errWouldBlock
  | errOther
deriving Repr, DecidableEq

def WriteResult.isOk : WriteResult → Bool
  | .ok => true
  | _ => false

/-- The fixed socket path hard-coded in `init`. -/
def pflySocketPath : String := "/tmp/pf.sock"

/-- The panic message of `init` when `connect` fails. -/
def connectFailMsg : String := "Could not connect to projectFly socket!"

/-- `pub fn init() -> Socket` of `src/src/lib.rs`, with the OS connect outcome
made explicit.  On a successful connect it returns the connected socket; on
any connect error it panics (modelled as `Except.error` carrying the panic
message) instead of returning a value. -/
def init (c : ConnectResult) : Except String Socket :=
  match c with
  | .ok => .ok { path := pflySocketPath, isOpen := true, sentPayloads := [] }
  | _ => .error connectFailMsg

/-- `socket2::Socket::send`: on an OS-reported success the payload is appended
to the stream the peer observes; on failure the stream is unchanged and the
call reports failure.  A closed descriptor cannot transmit. -/
def Socket.osSend (s : Socket) (w : WriteResult) (payload : List Nat) : Bool × Socket :=
  if s.isOpen && w.isOk then
    (true, { s with sentPayloads := s.sentPayloads ++ [payload] })
  else
    (false, s)

/-- `pub fn send_message(pfly_socket: Socket, data: PflyIpcData) -> bool` of
`src/src/lib.rs`, with the OS write outcome made explicit.

`bincode::serialize(&data).unwrap()` panics if serialization fails (modelled
as `none`); otherwise the payload is written once and the function returns
`send(..).is_ok()`.  The parameter `pfly_socket` is taken **by value**: when
the function returns, the owned `Socket` is dropped and `socket2`'s `Drop`
implementation closes the file descriptor — the returned `Socket` state
records this with `isOpen := false`. -/
def send_message (w : WriteResult) (pfly_socket : Socket) (data : PflyIpcData) :
    Option (Bool × Socket) :=
  match bincodeSerializeResult data with
  | .error _ => none
  | .ok payload =>
    let r := pfly_socket.osSend w payload
    some (r.1, { r.2 with isOpen := false })

/-! ## Reference decoder

A positional decoder for the wire layout `bincode::serialize` actually
produces: it consumes the byte stream field by field in declaration order
(fixed-width little-endian integers, one-byte bool/u8, and the
length-counted string), mirroring bincode's deserializer for the same
struct.  Trailing bytes are ignored, as with bincode's legacy
`allow_trailing_bytes` configuration. -/

/-- Consume exactly `w` bytes from the stream; fail if fewer remain. -/
def readExact : Nat → List Nat → Option (List Nat × List Nat)
  | 0, l => some ([], l)
  | _ + 1, [] => none
  | w + 1, b :: l => (readExact w l).map fun p => (b :: p.1, p.2)

/-- Reinterpret four little-endian bytes as a two's-complement `i32` value. -/
def decI32 (bs : List Nat) : Int :=
  let u := bytesToNatLE bs
  if u < 2 ^ 31 then (u : Int) else (u : Int) - 2 ^ 32

/-- Read one `i32` field. -/
def readI32 (l : List Nat) : Option (Int × List Nat) :=
  (readExact 4 l).map fun p => (decI32 p.1, p.2)

/-- Read one `u64` value (eight little-endian bytes). -/
def readU64 (l : List Nat) : Option (Nat × List Nat) :=
  (readExact 8 l).map fun p => (bytesToNatLE p.1, p.2)

/-- Read one `f64` field as its 64-bit IEEE-754 bit pattern. -/
def readF64bits (l : List Nat) : Option (Nat × List Nat) := readU64 l

/-- Read one `u8` field. -/
def readU8 : List Nat → Option (Nat × List Nat)
  | [] => none
  | b :: l => some (b, l)

/-- Read one `bool` field: byte `1` is `true`, byte `0` is `false`, anything
else is a decoding error (as in bincode). -/
def readBool : List Nat → Option (Bool × List Nat)
  | 0 :: l => some (false, l)
  | 1 :: l => some (true, l)
  | _ => none

/-- Read one string field: a `u64` byte count followed by that many bytes. -/
def readStr (l : List Nat) : Option (List Nat × List Nat) :=
  (readU64 l).bind fun p => readExact p.1 p.2

/-- Sequencing of decoding steps (`Option.bind`, spelled out so each parsing
step stays a separate function call). -/
def obind {α β : Type} (x : Option α) (f : α → Option β) : Option β :=
  match x with
  | none => none
  | some v => f v

/-- The reference decoder for the fixed positional layout: reads the 22
fields in declaration order and rebuilds the record.  Each step yields the
decoded value paired with the remaining byte stream. -/
def bincodeDeserialize (l : List Nat) : Option PflyIpcData :=
  obind (readI32 l) fun p1 =>
  obind (readI32 p1.2) fun p2 =>
  obind (readI32 p2.2) fun p3 =>
  obind (readI32 p3.2) fun p4 =>
  obind (readI32 p4.2) fun p5 =>
  obind (readI32 p5.2) fun p6 =>
  obind (readF64bits p6.2) fun p7 =>
  obind (readF64bits p7.2) fun p8 =>
  obind (readI32 p8.2) fun p9 =>
  obind (readI32 p9.2) fun p10 =>
  obind (readI32 p10.2) fun p11 =>
  obind (readI32 p11.2) fun p12 =>
  obind (readI32 p12.2) fun p13 =>
  obind (readU8 p13.2) fun p14 =>
  obind (readBool p14.2) fun p15 =>
  obind (readBool p15.2) fun p16 =>
  obind (readBool p16.2) fun p17 =>
  obind (readI32 p17.2) fun p18 =>
  obind (readI32 p18.2) fun p19 =>
  obind (readI32 p19.2) fun p20 =>
  obind (readI32 p20.2) fun p21 =>
  obind (readStr p21.2) fun p22 =>
  some { altitude := p1.1, agl := p2.1, groundspeed := p3.1, ias := p4.1,
         headingTrue := p5.1, headingMagnetic := p6.1,
         latitude := p7.1, longitude := p8.1,
         verticalSpeed := p9.1, landingVerticalSpeed := p10.1,
         gForce := p11.1, fuel := p12.1, transponder := p13.1,
         bridgeType := p14.1,
         isOnGround := p15.1, isSlew := p16.1, isPaused := p17.1,
         pitch := p18.1, roll := p19.1, time := p20.1, fps := p21.1,
         aircraftType := p22.1 }

/-! ## Lemmas about the encoders -/

theorem natToBytesLE_length (w n : Nat) : (natToBytesLE w n).length = w := by
  induction w generalizing n with
  | zero => rfl
  | succ w ih => simp [natToBytesLE, ih]

theorem serI32_length (x : Int) : (serI32 x).length = 4 :=
  natToBytesLE_length 4 _

theorem serU64_length (n : Nat) : (serU64 n).length = 8 :=
  natToBytesLE_length 8 _

theorem serF64bits_length (bits : Nat) : (serF64bits bits).length = 8 :=
  natToBytesLE_length 8 _

theorem serU8_length (n : Nat) : (serU8 n).length = 1 := rfl

theorem serBool_length (b : Bool) : (serBool b).length = 1 := by cases b <;> rfl

theorem serStr_length (s : List Nat) : (serStr s).length = 8 + s.length := by
  simp [serStr, serU64_length]

/-- Little-endian decode inverts little-endian encode, up to the width. -/
theorem bytesToNatLE_natToBytesLE (w n : Nat) :
    bytesToNatLE (natToBytesLE w n) = n % 2 ^ (8 * w) := by
  induction w generalizing n with
  | zero => simp [natToBytesLE, bytesToNatLE, Nat.mod_one]
  | succ w ih =>
    rw [natToBytesLE, bytesToNatLE, ih]
    have h8 : 8 * (w + 1) = 8 + 8 * w := by ring
    rw [h8, pow_add]
    rw [Nat.mod_mul]
    norm_num

/-! ## Lemmas about the decoder -/

theorem obind_some {α β : Type} (v : α) (f : α → Option β) :
    obind (some v) f = f v := rfl

theorem readExact_append (bs rest : List Nat) :
    readExact bs.length (bs ++ rest) = some (bs, rest) := by
  induction bs with
  | nil => rfl
  | cons b bs ih => simp [readExact, ih]

theorem readExact_append_of_length (w : Nat) (bs rest : List Nat)
    (h : bs.length = w) : readExact w (bs ++ rest) = some (bs, rest) :=
  h ▸ readExact_append bs rest

/-- Decoding four two's-complement little-endian bytes inverts `serI32` on
every in-range `i32` value. -/
theorem decI32_serI32 (x : Int) (h : i32InRange x) : decI32 (serI32 x) = x := by
  obtain ⟨h1, h2⟩ := h
  unfold decI32 serI32
  rw [bytesToNatLE_natToBytesLE]
  norm_num
  split_ifs <;> omega

theorem readI32_serI32 (x : Int) (rest : List Nat) (h : i32InRange x) :
    readI32 (serI32 x ++ rest) = some (x, rest) := by
  unfold readI32
  rw [readExact_append_of_length 4 _ _ (serI32_length x)]
  simp [decI32_serI32 x h]

theorem readU64_serU64 (n : Nat) (rest : List Nat) (h : n < 2 ^ 64) :
    readU64 (serU64 n ++ rest) = some (n, rest) := by
  unfold readU64 serU64
  rw [readExact_append_of_length 8 _ _ (natToBytesLE_length 8 _)]
  simp [bytesToNatLE_natToBytesLE]
  omega

theorem readF64bits_serF64bits (bits : Nat) (rest : List Nat)
    (h : bits < 2 ^ 64) :
    readF64bits (serF64bits bits ++ rest) = some (bits, rest) := by
  unfold readF64bits serF64bits
  have : serU64 bits = natToBytesLE 8 (bits % 2 ^ 64) := rfl
  rw [show natToBytesLE 8 (bits % 2 ^ 64) = serU64 bits from rfl]
  exact readU64_serU64 bits rest h

theorem readU8_serU8 (n : Nat) (rest : List Nat) (h : n < 256) :
    readU8 (serU8 n ++ rest) = some (n, rest) := by
  unfold readU8 serU8
  simp
  omega

theorem readBool_serBool (b : Bool) (rest : List Nat) :
    readBool (serBool b ++ rest) = some (b, rest) := by
  cases b <;> rfl

theorem readStr_serStr (s rest : List Nat) (h : s.length < 2 ^ 64) :
    readStr (serStr s ++ rest) = some (s, rest) := by
  unfold readStr serStr
  rw [List.append_assoc, readU64_serU64 _ _ h]
  simpa using readExact_append s rest

/-! ## Structural lemmas about the serialized payload -/

/-- The payload written out, as the explicit field-by-field concatenation. -/
theorem bincodeSerialize_unfold (d : PflyIpcData) :
    bincodeSerialize d =
      serI32 d.altitude ++ (serI32 d.agl ++ (serI32 d.groundspeed ++
      (serI32 d.ias ++ (serI32 d.headingTrue ++ (serI32 d.headingMagnetic ++
      (serF64bits d.latitude ++ (serF64bits d.longitude ++
      (serI32 d.verticalSpeed ++ (serI32 d.landingVerticalSpeed ++
      (serI32 d.gForce ++ (serI32 d.fuel ++ (serI32 d.transponder ++
      (serU8 d.bridgeType ++ (serBool d.isOnGround ++ (serBool d.isSlew ++
      (serBool d.isPaused ++ (serI32 d.pitch ++ (serI32 d.roll ++
      (serI32 d.time ++ (serI32 d.fps ++
      (serStr d.aircraftType ++ []))))))))))))))))))))) := rfl

/-- The 80 bytes of the 21 fixed-width fields, before the string field. -/
def pflyFixedPart (d : PflyIpcData) : List Nat :=
  List.flatten
    [serI32 d.altitude, serI32 d.agl, serI32 d.groundspeed, serI32 d.ias,
     serI32 d.headingTrue, serI32 d.headingMagnetic,
     serF64bits d.latitude, serF64bits d.longitude,
     serI32 d.verticalSpeed, serI32 d.landingVerticalSpeed,
     serI32 d.gForce, serI32 d.fuel, serI32 d.transponder,
     serU8 d.bridgeType,
     serBool d.isOnGround, serBool d.isSlew, serBool d.isPaused,
     serI32 d.pitch, serI32 d.roll, serI32 d.time, serI32 d.fps]

theorem pflyFixedPart_length (d : PflyIpcData) : (pflyFixedPart d).length = 80 := by
  simp [pflyFixedPart, serI32_length, serF64bits_length, serU8_length,
    serBool_length]

theorem bincodeSerialize_split (d : PflyIpcData) :
    bincodeSerialize d = pflyFixedPart d ++ serStr d.aircraftType := by
  simp [bincodeSerialize, pflyFieldEncodings, pflyFixedPart]

theorem bincodeSerialize_length (d : PflyIpcData) :
    (bincodeSerialize d).length = 88 + d.aircraftType.length := by
  rw [bincodeSerialize_split]
  simp [pflyFixedPart_length, serStr_length]
  omega

/-- bincode's fallible serializer succeeds on every record, returning exactly
the payload bytes. -/
theorem bincodeSerializeResult_ok (d : PflyIpcData) :
    bincodeSerializeResult d = Except.ok (bincodeSerialize d) := rfl

/-! ## Sample records and sockets (concrete witnesses) -/

/-- The record of the crate's doc example: `altitude: 569`, `latitude:
43.6772222` (bit pattern `4631343839860264966`), `longitude: -79.6305556`
(bit pattern `13858675955987387345`), `gForce: 1000`, `fuel: 20000`,
`transponder: 1425`, `bridgeType: 3`, `isOnGround`, `fps: 120`,
`aircraftType: "B77W"` (UTF-8 bytes `[66, 55, 55, 87]`). -/
def sampleData : PflyIpcData where
  altitude := 569
  agl := 0
  groundspeed := 0
  ias := 0
  headingTrue := 0
  headingMagnetic := 0
  latitude := 4631343839860264966
  longitude := 13858675955987387345
  verticalSpeed := 0
  landingVerticalSpeed := 0
  gForce := 1000
  fuel := 20000
  transponder := 1425
  bridgeType := 3
  isOnGround := true
  isSlew := false
  isPaused := false
  pitch := 0
  roll := 0
  time := 0
  fps := 120
  aircraftType := [66, 55, 55, 87]

/-- A literal copy of `sampleData`, written out separately. -/
def sampleDataCopy : PflyIpcData where
  altitude := 569
  agl := 0
  groundspeed := 0
  ias := 0
  headingTrue := 0
  headingMagnetic := 0
  latitude := 4631343839860264966
  longitude := 13858675955987387345
  verticalSpeed := 0
  landingVerticalSpeed := 0
  gForce := 1000
  fuel := 20000
  transponder := 1425
  bridgeType := 3
  isOnGround := true
  isSlew := false
  isPaused := false
  pitch := 0
  roll := 0
  time := 0
  fps := 120
  aircraftType := [66, 55, 55, 87]

/-- Like `sampleData` but with the one-byte aircraft type `"A"`. -/
def sampleDataShort : PflyIpcData :=
  { sampleData with aircraftType := [65] }

/-- The connected socket `init` returns on a successful connect. -/
def initSocket : Socket :=
  { path := pflySocketPath, isOpen := true, sentPayloads := [] }

/-- The socket state after one successful `send_message` on `initSocket`:
the payload is on the stream and the descriptor has been closed by the drop
of the by-value `pfly_socket` argument. -/
def sockAfterFirstSend : Socket :=
  { path := pflySocketPath, isOpen := false,
    sentPayloads := [bincodeSerialize sampleData] }

/-! ## Claim theorems -/

/-- C1, counterexample: the spec's claim of a constant total payload length
(and a fixed-width text field with no length marker) is false on the code:
two valid records that differ only in the byte length of `aircraftType`
serialize to payloads of different lengths (92 bytes for `"B77W"`, 89 bytes
for `"A"`). -/
theorem c1_counterexample :
    PflyIpcData.Valid sampleData ∧ PflyIpcData.Valid sampleDataShort ∧
    (bincodeSerialize sampleData).length = 92 ∧
    (bincodeSerialize sampleDataShort).length = 89 ∧
    (bincodeSerialize sampleData).length ≠ (bincodeSerialize sampleDataShort).length := by
  refine ⟨by decide, by decide, by decide, by decide, by decide⟩

/-- C1, amended: the serialization step of `send_message` encodes
`aircraftType` at its actual byte length behind an 8-byte little-endian
byte-count, so the total payload length is `88 + n` and is equal for two
records exactly when their `aircraftType` byte lengths are equal (it is not
constant across all valid records). -/
theorem c1_length_constant_iff_same_text_length (d₁ d₂ : PflyIpcData) :
    (bincodeSerialize d₁).length = (bincodeSerialize d₂).length ↔
      d₁.aircraftType.length = d₂.aircraftType.length := by
  rw [bincodeSerialize_length, bincodeSerialize_length]
  omega

/-- C2, counterexample: the serialized wire record does not consist of 21
fields; evaluating the per-field chunk list at a concrete record shows 22
fields. -/
theorem c2_counterexample : (pflyFieldEncodings sampleData).length ≠ 21 := by
  decide

/-- C2, amended: the serialized wire record produced by `send_message`
consists of exactly 22 fields, concatenated in declaration order. -/
theorem c2_field_count (d : PflyIpcData) :
    (pflyFieldEncodings d).length = 22 ∧
    bincodeSerialize d = (pflyFieldEncodings d).flatten :=
  ⟨rfl, rfl⟩

/-- C3 (code bug): a handle cannot be passed to `send_message` twice.
`send_message` takes `pfly_socket: Socket` by value, so the first call
consumes the handle and, when it returns, drops the `Socket`, closing the
file descriptor.  Evaluating the model at the failing input: after one
successful send on the freshly connected handle the descriptor is closed
(`isOpen = false`), and a send attempted on that closed handle can only
report failure and transmits nothing. -/
theorem c3_handle_consumed_by_send :
    send_message WriteResult.ok initSocket sampleData = some (true, sockAfterFirstSend) ∧
    sockAfterFirstSend.isOpen = false ∧
    send_message WriteResult.ok sockAfterFirstSend sampleData =
      some (false, sockAfterFirstSend) := by
  refine ⟨rfl, rfl, rfl⟩

/-- C4: `init` either returns the connected handle (on OS connect success)
or panics with the diagnostic `"Could not connect to projectFly socket!"`,
which names the missing projectFly companion service; no error value and no
handle is ever returned on a connect failure. -/
theorem c4_init_connect_dichotomy :
    init ConnectResult.ok = Except.ok initSocket ∧
    init ConnectResult.errNoListener = Except.error connectFailMsg ∧
    init ConnectResult.errNoPath = Except.error connectFailMsg ∧
    init ConnectResult.errPermission = Except.error connectFailMsg ∧
    init ConnectResult.errOther = Except.error connectFailMsg ∧
    connectFailMsg = "Could not connect to " ++ "projectFly" ++ " socket!" :=
  ⟨rfl, rfl, rfl, rfl, rfl, rfl⟩

/-- C5: on an open handle, `send_message` returns exactly the OS write
status (`true` on success, `false` otherwise), never panics, and performs no
retry: the stream gains the single payload on success and is unchanged on
failure. -/
theorem c5_send_returns_write_status (w : WriteResult) (s : Socket)
    (d : PflyIpcData) (h : s.isOpen = true) :
    send_message w s d =
      some (w.isOk,
        { path := s.path, isOpen := false,
          sentPayloads :=
            if w.isOk then s.sentPayloads ++ [bincodeSerialize d]
            else s.sentPayloads }) := by
  obtain ⟨p, o, sp⟩ := s
  simp only [Socket.isOpen] at h
  subst h
  cases w <;>
    simp [send_message, bincodeSerializeResult_ok, Socket.osSend,
      WriteResult.isOk]

/-- C5, witness: a send whose peer has closed the connection returns
`false`, does not terminate, and leaves the stream empty. -/
theorem c5_witness :
    initSocket.isOpen = true ∧
    send_message WriteResult.errPeerClosed initSocket sampleData =
      some (false,
        { path := pflySocketPath, isOpen := false, sentPayloads := [] }) :=
  ⟨rfl, c5_send_returns_write_status WriteResult.errPeerClosed initSocket
    sampleData rfl⟩

/-- C6: the fields appear in the payload exactly in declaration order with
no gaps or reordering — the payload is the plain concatenation of the
per-field encodings — and in particular `altitude` occupies byte offset 0
with width 4 and `agl` occupies byte offset 4 with width 4. -/
theorem c6_field_order_and_offsets (d : PflyIpcData) :
    bincodeSerialize d =
      serI32 d.altitude ++ (serI32 d.agl ++ (serI32 d.groundspeed ++
      (serI32 d.ias ++ (serI32 d.headingTrue ++ (serI32 d.headingMagnetic ++
      (serF64bits d.latitude ++ (serF64bits d.longitude ++
      (serI32 d.verticalSpeed ++ (serI32 d.landingVerticalSpeed ++
      (serI32 d.gForce ++ (serI32 d.fuel ++ (serI32 d.transponder ++
      (serU8 d.bridgeType ++ (serBool d.isOnGround ++ (serBool d.isSlew ++
      (serBool d.isPaused ++ (serI32 d.pitch ++ (serI32 d.roll ++
      (serI32 d.time ++ (serI32 d.fps ++
      (serStr d.aircraftType ++ []))))))))))))))))))))) ∧
    (serI32 d.altitude).length = 4 ∧
    (bincodeSerialize d).take 4 = serI32 d.altitude ∧
    (serI32 d.agl).length = 4 ∧
    ((bincodeSerialize d).drop 4).take 4 = serI32 d.agl := by
  refine ⟨bincodeSerialize_unfold d, serI32_length _, ?_, serI32_length _, ?_⟩
  · rw [bincodeSerialize_unfold d]
    exact List.take_left' (serI32_length _)
  · rw [bincodeSerialize_unfold d, List.drop_left' (serI32_length _)]
    exact List.take_left' (serI32_length _)

/-- C7: encoding a valid record and decoding the bytes with the reference
decoder for the positional layout reproduces every field exactly; the text
field `aircraftType` is reproduced in full (the length-counted encoding
truncates nothing, which satisfies the claim's round-trip requirement for
the text field a fortiori). -/
theorem c7_encode_decode_roundtrip (d : PflyIpcData) (h : d.Valid) :
    bincodeDeserialize (bincodeSerialize d) = some d := by
  obtain ⟨hAlt, hAgl, hGs, hIas, hHt, hHm, hLat, hLon, hVs, hLvs, hGf, hFu,
    hTr, hBt, hPi, hRo, hTi, hFp, hSl, hSb⟩ := h
  rw [bincodeSerialize_unfold]
  unfold bincodeDeserialize
  simp only [readI32_serI32 _ _ hAlt, readI32_serI32 _ _ hAgl,
    readI32_serI32 _ _ hGs, readI32_serI32 _ _ hIas,
    readI32_serI32 _ _ hHt, readI32_serI32 _ _ hHm,
    readF64bits_serF64bits _ _ hLat, readF64bits_serF64bits _ _ hLon,
    readI32_serI32 _ _ hVs, readI32_serI32 _ _ hLvs,
    readI32_serI32 _ _ hGf, readI32_serI32 _ _ hFu,
    readI32_serI32 _ _ hTr, readU8_serU8 _ _ hBt,
    readBool_serBool, readI32_serI32 _ _ hPi,
    readI32_serI32 _ _ hRo, readI32_serI32 _ _ hTi,
    readI32_serI32 _ _ hFp, readStr_serStr _ _ hSl, obind_some]

/-- C7, witness: the doc-example record is valid and round-trips exactly. -/
theorem c7_witness :
    sampleData.Valid ∧
    bincodeDeserialize (bincodeSerialize sampleData) = some sampleData :=
  ⟨by decide, c7_encode_decode_roundtrip sampleData (by decide)⟩

/-- C8: encoding is deterministic — two records that agree on all 22 fields
serialize to identical byte sequences (the encoder consults nothing but the
field values). -/
theorem c8_encoding_deterministic (d₁ d₂ : PflyIpcData)
    (h1 : d₁.altitude = d₂.altitude) (h2 : d₁.agl = d₂.agl)
    (h3 : d₁.groundspeed = d₂.groundspeed) (h4 : d₁.ias = d₂.ias)
    (h5 : d₁.headingTrue = d₂.headingTrue)
    (h6 : d₁.headingMagnetic = d₂.headingMagnetic)
    (h7 : d₁.latitude = d₂.latitude) (h8 : d₁.longitude = d₂.longitude)
    (h9 : d₁.verticalSpeed = d₂.verticalSpeed)
    (h10 : d₁.landingVerticalSpeed = d₂.landingVerticalSpeed)
    (h11 : d₁.gForce = d₂.gForce) (h12 : d₁.fuel = d₂.fuel)
    (h13 : d₁.transponder = d₂.transponder)
    (h14 : d₁.bridgeType = d₂.bridgeType)
    (h15 : d₁.isOnGround = d₂.isOnGround) (h16 : d₁.isSlew = d₂.isSlew)
    (h17 : d₁.isPaused = d₂.isPaused) (h18 : d₁.pitch = d₂.pitch)
    (h19 : d₁.roll = d₂.roll) (h20 : d₁.time = d₂.time)
    (h21 : d₁.fps = d₂.fps) (h22 : d₁.aircraftType = d₂.aircraftType) :
    bincodeSerialize d₁ = bincodeSerialize d₂ := by
  have hd : d₁ = d₂ := by
    cases d₁; cases d₂; simp_all
  rw [hd]

/-- C8, witness: two separately written copies of the doc-example record
serialize to the same bytes. -/
theorem c8_witness : bincodeSerialize sampleData = bincodeSerialize sampleDataCopy :=
  c8_encoding_deterministic sampleData sampleDataCopy rfl rfl rfl rfl rfl rfl
    rfl rfl rfl rfl rfl rfl rfl rfl rfl rfl rfl rfl rfl rfl rfl rfl

/-- C9: the payload is `88 + n` bytes for a record whose `aircraftType` has
`n` UTF-8 bytes: 80 bytes of fixed-width little-endian fields (15 `i32`,
2 `f64`, one `u8`, 3 `bool`s) followed by the 8-byte little-endian byte
count `n` and the `n` string bytes. -/
theorem c9_payload_layout (d : PflyIpcData)
    (h : d.aircraftType.length < 2 ^ 64) :
    (bincodeSerialize d).length = 88 + d.aircraftType.length ∧
    (pflyFixedPart d).length = 80 ∧
    (bincodeSerialize d).take 80 = pflyFixedPart d ∧
    (bincodeSerialize d).drop 80 =
      natToBytesLE 8 d.aircraftType.length ++ d.aircraftType := by
  refine ⟨bincodeSerialize_length d, pflyFixedPart_length d, ?_, ?_⟩
  · rw [bincodeSerialize_split]
    exact List.take_left' (pflyFixedPart_length d)
  · rw [bincodeSerialize_split, List.drop_left' (pflyFixedPart_length d)]
    unfold serStr serU64
    rw [Nat.mod_eq_of_lt h]

/-- C9, witness: the layout facts instantiated at the doc-example record. -/
theorem c9_witness :
    sampleData.aircraftType.length < 2 ^ 64 ∧
    (bincodeSerialize sampleData).length = 88 + sampleData.aircraftType.length :=
  ⟨by decide, (c9_payload_layout sampleData (by decide)).1⟩

/-- C10: serialization never fails — the fallible serializer returns `ok`
with the payload on every record, so the `unwrap` in `send_message` never
reaches its panic branch and `send_message` always returns a value. -/
theorem c10_serialization_never_fails (w : WriteResult) (s : Socket)
    (d : PflyIpcData) :
    bincodeSerializeResult d = Except.ok (bincodeSerialize d) ∧
    (send_message w s d).isSome = true := by
  refine ⟨bincodeSerializeResult_ok d, ?_⟩
  simp [send_message, bincodeSerializeResult_ok d]

end PflyRust
